import Mathlib

/-!
Shallow embedding of the WechatNotice gateway: the WeChat Work client
(token cache, send operations) from src/source/wechat/client.py, the audit
store from src/source/database/db_manager.py, and the POST /send handler
from src/source/api/routes.py.  Network effects (what the upstream token
and message endpoints would answer) and the clock are explicit parameters;
machine behaviour of the Python dictionaries (truthiness, dict.get with
defaults, int parsing) is modelled by small helper functions.
-/

namespace WechatNotice

/-! ## Python value helpers -/

/-- Truthiness of an optional string: Python treats None and the empty
string as falsy. Used for header values, cached tokens and message text. -/
def pyTruthyOptStr : Option String → Bool
  | none => false
  | some s => s != ""

/-- Lookup in a string-valued JSON object, modelled as an association list:
the semantics of data.get(key) returning None when the key is absent. -/
def pyGet (d : List (String × String)) (k : String) : Option String :=
  (d.find? (fun p => p.1 == k)).map (fun p => p.2)

/-- Rendering of an optional string inside a Python f-string: None prints
as the four letters None. -/
def pyShowOpt : Option String → String
  | none => "None"
  | some s => s

/-- Digit run of a Python integer literal: nonempty, decimal digits with
single underscores allowed between digits (int of Python 3.6+). Returns
the numeric value of the digits. -/
def pyIntDigits (cs : List Char) : Option Nat :=
  if cs.isEmpty then none
  else if cs.head? = some '_' ∨ cs.getLast? = some '_' then none
  else if (cs.zip cs.tail).any (fun p => p.1 == '_' && p.2 == '_') then none
  else if cs.all (fun c => c.isDigit || c == '_') then
    some ((cs.filter Char.isDigit).foldl (fun a c => a * 10 + (c.toNat - 48)) 0)
  else none

/-- Strip of leading and trailing whitespace from a character list. -/
def pyStrip (cs : List Char) : List Char :=
  ((cs.dropWhile Char.isWhitespace).reverse.dropWhile Char.isWhitespace).reverse

/-- The Python built-in int applied to a string (ASCII fragment):
surrounding whitespace stripped, an optional sign, then decimal digits;
None models a ValueError. -/
def pyInt (s : String) : Option Int :=
  match pyStrip s.toList with
  | '+' :: rest => (pyIntDigits rest).map Int.ofNat
  | '-' :: rest => (pyIntDigits rest).map (fun n => -(n : Int))
  | cs => (pyIntDigits cs).map Int.ofNat

/-- Rounding half to even at integer precision, the tie rule of the Python
built-in round, on exact rationals. -/
def roundHalfEven (q : ℚ) : Int :=
  let f := ⌊q⌋
  if q - f < 1/2 then f
  else if q - f > 1/2 then f + 1
  else if f % 2 = 0 then f else f + 1

/-- The Python round(x, 2) on exact rationals. -/
def round2 (q : ℚ) : ℚ :=
  (roundHalfEven (q * 100) : ℚ) / 100

/-! ## WeChat client: token cache (client.py lines 30-67) -/

/-- Parsed JSON body of the upstream gettoken reply; a field is none when
the key is absent from the reply, so that result.get returns None. -/
structure TokenResp where
  errcode : Option Int
  errmsg : Option String
  access_token : Option String
  expires_in : Option Int
deriving DecidableEq, Repr

/-- Behaviour of one GET to the gettoken endpoint, were it performed:
either a reply whose body parsed, or a requests.RequestException. -/
inductive TokenNet where
  | resp (r : TokenResp)
  | transport (msg : String)
deriving DecidableEq, Repr

/-- Mutable token state of one WechatWorkClient instance: fields
access_token (initially None) and token_expires_at (initially 0). -/
structure ClientState where
  access_token : Option String
  token_expires_at : Int
deriving DecidableEq, Repr

/-- Fresh client state as set by the constructor of WechatWorkClient. -/
def freshClient : ClientState := { access_token := none, token_expires_at := 0 }

/-- The cache check of get_access_token line 41: the token is truthy and
the current time is strictly before token_expires_at. -/
def tokenCacheValid (st : ClientState) (now : Int) : Bool :=
  pyTruthyOptStr st.access_token && decide (now < st.token_expires_at)

/-- Embedding of WechatWorkClient.get_access_token (client.py lines
30-67). Returns the result (ok token, or error message for a raised
Exception), the client state after the call, and how many upstream token
requests were issued (0 or 1). Time is the explicit parameter now. -/
def get_access_token (st : ClientState) (now : Int) (net : TokenNet) :
    Except String (Option String) × ClientState × Nat :=
  if tokenCacheValid st now then
    (.ok st.access_token, st, 0)
  else
    match net with
    | .resp r =>
      if r.errcode = some 0 then
        let expiresIn := r.expires_in.getD 7200
        (.ok r.access_token,
         { access_token := r.access_token, token_expires_at := now + expiresIn - 300 }, 1)
      else
        (.error ("获取access_token失败: " ++ pyShowOpt r.errmsg), st, 1)
    | .transport m =>
      (.error ("请求access_token异常: " ++ m), st, 1)

/-! ## WeChat client: send operations (client.py lines 69-354) -/

/-- Parsed JSON body of an upstream message/send reply; fields are none
when the corresponding key is absent. -/
structure MsgResp where
  errcode : Option Int
  errmsg : Option String
  invaliduser : Option String
  invalidparty : Option String
  invalidtag : Option String
deriving DecidableEq, Repr

/-- Behaviour of one POST to the message/send endpoint, were it performed. -/
inductive MsgNet where
  | resp (r : MsgResp)
  | transport (msg : String)
deriving DecidableEq, Repr

/-- The dictionary returned by the send operations: the success shape of
client.py lines 122-128 (keys success, message, invaliduser, invalidparty,
invalidtag), the upstream-error shape of lines 130-134 (keys success,
errcode, errmsg — the latter two possibly None), and the transport-error
shape of lines 136-139 (keys success and error). -/
inductive SendDict where
  | okRes (invaliduser invalidparty invalidtag : String)
  | errRes (errcode : Option Int) (errmsg : Option String)
  | exnRes (error : String)
deriving DecidableEq, Repr

/-- The value of result.get in the route, where the success key is True
only in the success shape. -/
def sendDictSuccess : SendDict → Bool
  | .okRes _ _ _ => true
  | .errRes _ _ => false
  | .exnRes _ => false

/-- The expression result.get of errmsg with default result.get of error
(routes.py line 161): the errmsg key exists (possibly None) in the
upstream-error shape, so the default is not consulted there. -/
def sendDictErrMsg : SendDict → Option String
  | .okRes _ _ _ => none
  | .errRes _ em => em
  | .exnRes e => some e

/-- Whether the returned dictionary carries a non-null errcode key. -/
def sendDictHasErrCode : SendDict → Bool
  | .errRes (some _) _ => true
  | _ => false

/-- Whether the returned dictionary carries a non-null error text: an
errmsg value in the upstream-error shape, or the error key of the
transport-error shape. -/
def sendDictHasErrMsg : SendDict → Bool
  | .errRes _ (some _) => true
  | .exnRes _ => true
  | _ => false

/-- Whether a send operation returned normally (no propagated exception). -/
def exceptOk : Except String SendDict → Bool
  | .ok _ => true
  | .error _ => false

/-- The JSON payload built by send_text_message (client.py lines 99-115);
toparty and totag keys are added only when the arguments are truthy. -/
structure TextPayload where
  touser : Option String
  msgtype : String
  agentid : Int
  content : String
  safe : Int
  enable_id_trans : Int
  enable_duplicate_check : Int
  duplicate_check_interval : Int
  toparty : Option String
  totag : Option String
deriving DecidableEq, Repr

deriving instance DecidableEq for Except

/-- Result of one call to a send operation: the payload it posted (none if
the token fetch raised before the payload was built), the returned
dictionary or the propagated token exception, and the number of upstream
token and send requests issued. -/
structure SendOut where
  payload : Option TextPayload
  result : Except String SendDict
  tokenReqs : Nat
  postReqs : Nat
deriving DecidableEq, Repr

/-- Classification of the message/send reply shared by all four send
operations (client.py lines 117-139): errcode zero gives the success
shape, any other parsed reply the upstream-error shape, and a
requests.RequestException the transport-error shape. -/
def classifySend (mnet : MsgNet) : SendDict :=
  match mnet with
  | .resp r =>
    if r.errcode = some 0 then
      .okRes (r.invaliduser.getD "") (r.invalidparty.getD "") (r.invalidtag.getD "")
    else
      .errRes r.errcode r.errmsg
  | .transport m => .exnRes ("发送消息异常: " ++ m)

/-- Embedding of WechatWorkClient.send_text_message (client.py lines
69-139): fetch a token (an exception propagates to the caller), build the
text payload, POST it and classify the reply. -/
def send_text_message (agentid : Int) (content : String) (touser : Option String)
    (toparty totag : Option String)
    (safe enable_id_trans enable_duplicate_check duplicate_check_interval : Int)
    (st : ClientState) (now : Int) (tnet : TokenNet) (mnet : MsgNet) : SendOut :=
  match get_access_token st now tnet with
  | (.error m, _, tk) =>
    { payload := none, result := .error m, tokenReqs := tk, postReqs := 0 }
  | (.ok _, _, tk) =>
    let data : TextPayload :=
      { touser := touser, msgtype := "text", agentid := agentid, content := content,
        safe := safe, enable_id_trans := enable_id_trans,
        enable_duplicate_check := enable_duplicate_check,
        duplicate_check_interval := duplicate_check_interval,
        toparty := if pyTruthyOptStr toparty then toparty else none,
        totag := if pyTruthyOptStr totag then totag else none }
    { payload := some data, result := .ok (classifySend mnet), tokenReqs := tk, postReqs := 1 }

/-- One article of a news message: a string-valued JSON object (title,
description, url, picurl per the docstring), passed through untouched. -/
abbrev Article := List (String × String)

/-- The JSON payload built by send_news_message (client.py lines 316-330);
the articles list is truncated to the first 8 entries at line 321. -/
structure NewsPayload where
  touser : Option String
  msgtype : String
  agentid : Int
  articles : List Article
  enable_duplicate_check : Int
  duplicate_check_interval : Int
  toparty : Option String
  totag : Option String
deriving DecidableEq, Repr

/-- Result of one call to send_news_message. -/
structure NewsOut where
  payload : Option NewsPayload
  result : Except String SendDict
  tokenReqs : Nat
  postReqs : Nat
deriving DecidableEq, Repr

/-- Embedding of WechatWorkClient.send_news_message (client.py lines
285-354): fetch a token, build the news payload with the articles list
truncated to 8, POST it and classify the reply. -/
def send_news_message (agentid : Int) (articles : List Article)
    (touser toparty totag : Option String)
    (enable_duplicate_check duplicate_check_interval : Int)
    (st : ClientState) (now : Int) (tnet : TokenNet) (mnet : MsgNet) : NewsOut :=
  match get_access_token st now tnet with
  | (.error m, _, tk) =>
    { payload := none, result := .error m, tokenReqs := tk, postReqs := 0 }
  | (.ok _, _, tk) =>
    let data : NewsPayload :=
      { touser := touser, msgtype := "news", agentid := agentid,
        articles := articles.take 8,
        enable_duplicate_check := enable_duplicate_check,
        duplicate_check_interval := duplicate_check_interval,
        toparty := if pyTruthyOptStr toparty then toparty else none,
        totag := if pyTruthyOptStr totag then totag else none }
    { payload := some data, result := .ok (classifySend mnet), tokenReqs := tk, postReqs := 1 }

/-! ## Audit store (db_manager.py)

Timestamps are modelled as seconds (Int); the source stores them as
strings of the fixed format %Y-%m-%d %H:%M:%S, whose lexicographic
comparison in SQLite agrees with chronological order, and computes
cutoffs by exact datetime arithmetic, here now minus days times 86400.
Response times are exact rationals (the REAL column). -/

/-- One row of the request_logs table (db_manager.py lines 56-74). The
agent_id column receives either the parsed integer or, when parsing never
happened, the raw header string, hence the sum type. -/
structure AuditRecord where
  timestamp : Int
  method : String
  path : String
  client_ip : String
  user_agent : String
  corp_id : Option String
  agent_id : Option (Int ⊕ String)
  touser : Option String
  message : Option String
  status_code : Int
  response_time : Option ℚ
  success : Bool
  error_message : Option String
  created_at : Int
deriving DecidableEq, Repr

/-- The dictionary returned by DatabaseManager.get_statistics
(db_manager.py lines 236-242). -/
structure Stats where
  total_requests : Nat
  success_requests : Nat
  failed_requests : Nat
  success_rate : ℚ
  avg_response_time : ℚ
deriving DecidableEq, Repr

/-- Embedding of DatabaseManager.get_statistics (db_manager.py lines
191-242): counts and averages over the rows whose timestamp is at or
after the cutoff datetime.now minus days; AVG ranges over the non-NULL
response times and yields NULL (then or 0 applies) when there are none;
the success rate is a percentage, 0 when no rows qualify. -/
def get_statistics (days : Int) (now : Int) (db : List AuditRecord) : Stats :=
  let cutoff := now - days * 86400
  let recs := db.filter (fun r => decide (cutoff ≤ r.timestamp))
  let total := recs.length
  let succ := (recs.filter (fun r => r.success)).length
  let withRt := recs.filter (fun r => r.response_time.isSome)
  let avgRaw : ℚ :=
    if withRt.length = 0 then 0
    else (withRt.map (fun r => r.response_time.getD 0)).sum / (withRt.length : ℚ)
  { total_requests := total,
    success_requests := succ,
    failed_requests := total - succ,
    success_rate := if 0 < total then (succ : ℚ) / (total : ℚ) * 100 else 0,
    avg_response_time := round2 avgRaw }

/-- Embedding of DatabaseManager.clean_old_logs (db_manager.py lines
244-262): DELETE the rows whose timestamp is strictly before the cutoff
datetime.now minus days, returning the remaining table and the rowcount
of deleted rows. -/
def clean_old_logs (days : Int) (now : Int) (db : List AuditRecord) :
    List AuditRecord × Nat :=
  let cutoff := now - days * 86400
  let kept := db.filter (fun r => decide (¬ r.timestamp < cutoff))
  (kept, (db.filter (fun r => decide (r.timestamp < cutoff))).length)

/-! ## Gateway handler: POST /send (routes.py lines 30-196) -/

/-- One inbound POST /send request: the three credential headers, the
User-Agent header, the parsed JSON body (none when get_json returned
None), and the caller address. Body values are modelled as strings, the
type the handler expects for message and touser. -/
structure Req where
  corpId : Option String
  corpSecret : Option String
  agentId : Option String
  body : Option (List (String × String))
  clientIp : String
  userAgent : Option String
deriving DecidableEq, Repr

/-- JSON body of the HTTP response: either the envelope of routes.py with
keys success False and error, or jsonify of the send result dictionary. -/
inductive RespBody where
  | envelope (error : String)
  | sendResult (d : SendDict)
deriving DecidableEq, Repr

/-- Observable outcome of one POST /send request: the HTTP response, the
arguments (content, touser) of each call made to
client.send_text_message, the upstream request counts, and the audit rows
the finally block persisted. -/
structure HandlerOut where
  respBody : RespBody
  respCode : Int
  clientSends : List (String × String)
  tokenReqs : Nat
  postReqs : Nat
  records : List AuditRecord
deriving DecidableEq, Repr

/-- The audit row built by the finally block of routes.py (lines 175-196)
from the request-scoped variables as they stand when the handler returns;
message is truncated to 500 characters and replaced by None when falsy
(routes.py line 189), user_agent defaults to Unknown (line 49). -/
def mkAudit (req : Req) (now : Int) (rt : ℚ) (corp_id : Option String)
    (agent_id : Option (Int ⊕ String)) (touser message : Option String)
    (status_code : Int) (success : Bool) (error_message : Option String) : AuditRecord :=
  { timestamp := now, method := "POST", path := "/send", client_ip := req.clientIp,
    user_agent := req.userAgent.getD "Unknown",
    corp_id := corp_id, agent_id := agent_id, touser := touser,
    message := match message with
      | none => none
      | some s => if s = "" then none else some (s.take 500),
    status_code := status_code, response_time := some (round2 rt),
    success := success, error_message := error_message, created_at := now }

/-- The insert of the finally block, wrapped in try/except (routes.py
lines 180-196): a failing insert is caught and logged, persisting
nothing. -/
def auditInsert (dbOk : Bool) (rec : AuditRecord) : List AuditRecord :=
  if dbOk then [rec] else []

/-- Embedding of the send_message handler (routes.py lines 30-196).
Validation of the three headers, the integer agent id, the body and the
message field short-circuits to a 400 envelope; then a fresh
WechatWorkClient sends the text message, a success-shaped result returns
200, any other returned dictionary 500, and a propagated exception (the
token fetch raising) the 500 server-error envelope. The finally block
always runs and records the request-scoped variables as assigned so far;
dbOk tells whether that insert succeeds. -/
def send_message (req : Req) (tnet : TokenNet) (mnet : MsgNet) (dbOk : Bool)
    (now : Int) (rt : ℚ) : HandlerOut :=
  let corpid := req.corpId
  let corpsecret := req.corpSecret
  let agentidS := req.agentId
  if ¬ pyTruthyOptStr corpid then
    { respBody := .envelope "请求头缺少 X-Corp-Id", respCode := 400,
      clientSends := [], tokenReqs := 0, postReqs := 0,
      records := auditInsert dbOk (mkAudit req now rt corpid (agentidS.map Sum.inr)
        none none 400 false (some "请求头缺少 X-Corp-Id")) }
  else if ¬ pyTruthyOptStr corpsecret then
    { respBody := .envelope "请求头缺少 X-Corp-Secret", respCode := 400,
      clientSends := [], tokenReqs := 0, postReqs := 0,
      records := auditInsert dbOk (mkAudit req now rt corpid (agentidS.map Sum.inr)
        none none 400 false (some "请求头缺少 X-Corp-Secret")) }
  else if ¬ pyTruthyOptStr agentidS then
    { respBody := .envelope "请求头缺少 X-Agent-Id", respCode := 400,
      clientSends := [], tokenReqs := 0, postReqs := 0,
      records := auditInsert dbOk (mkAudit req now rt corpid (agentidS.map Sum.inr)
        none none 400 false (some "请求头缺少 X-Agent-Id")) }
  else
    match pyInt (agentidS.getD "") with
    | none =>
      { respBody := .envelope "X-Agent-Id 必须是数字", respCode := 400,
        clientSends := [], tokenReqs := 0, postReqs := 0,
        records := auditInsert dbOk (mkAudit req now rt corpid (agentidS.map Sum.inr)
          none none 400 false (some "X-Agent-Id 必须是数字")) }
    | some agentN =>
      let emptyBodyOut : HandlerOut :=
        { respBody := .envelope "请求体不能为空", respCode := 400,
          clientSends := [], tokenReqs := 0, postReqs := 0,
          records := auditInsert dbOk (mkAudit req now rt corpid (some (Sum.inl agentN))
            none none 400 false (some "请求体为空")) }
      match req.body with
      | none => emptyBodyOut
      | some d =>
        if d.isEmpty then emptyBodyOut
        else
          let message? := pyGet d "message"
          if ¬ pyTruthyOptStr message? then
            { respBody := .envelope "消息内容不能为空", respCode := 400,
              clientSends := [], tokenReqs := 0, postReqs := 0,
              records := auditInsert dbOk (mkAudit req now rt corpid (some (Sum.inl agentN))
                none message? 400 false (some "消息内容为空")) }
          else
            let msg := message?.getD ""
            let touserS := (pyGet d "touser").getD "@all"
            let so := send_text_message agentN msg (some touserS) none none 0 0 0 1800
              freshClient now tnet mnet
            match so.result with
            | .ok dres =>
              if sendDictSuccess dres then
                { respBody := .sendResult dres, respCode := 200,
                  clientSends := [(msg, touserS)],
                  tokenReqs := so.tokenReqs, postReqs := so.postReqs,
                  records := auditInsert dbOk (mkAudit req now rt corpid
                    (some (Sum.inl agentN)) (some touserS) (some msg) 200 true none) }
              else
                { respBody := .sendResult dres, respCode := 500,
                  clientSends := [(msg, touserS)],
                  tokenReqs := so.tokenReqs, postReqs := so.postReqs,
                  records := auditInsert dbOk (mkAudit req now rt corpid
                    (some (Sum.inl agentN)) (some touserS) (some msg) 500 false
                    (sendDictErrMsg dres)) }
            | .error e =>
              { respBody := .envelope ("服务器错误: " ++ e), respCode := 500,
                clientSends := [(msg, touserS)],
                tokenReqs := so.tokenReqs, postReqs := so.postReqs,
                records := auditInsert dbOk (mkAudit req now rt corpid
                  (some (Sum.inl agentN)) (some touserS) (some msg) 500 false (some e)) }

/-! ## Helper lemmas -/

/-- A valid cache answers from memory: no request, state unchanged. -/
lemma gat_cached {st : ClientState} {now : Int} (net : TokenNet)
    (h : tokenCacheValid st now = true) :
    get_access_token st now net = (.ok st.access_token, st, 0) := by
  simp [get_access_token, h]

/-- A stale or empty cache with a zero-errcode reply refreshes. -/
lemma gat_refresh_ok {st : ClientState} {now : Int} {r : TokenResp}
    (h : tokenCacheValid st now = false) (he : r.errcode = some 0) :
    get_access_token st now (.resp r) =
      (.ok r.access_token,
       { access_token := r.access_token,
         token_expires_at := now + r.expires_in.getD 7200 - 300 }, 1) := by
  simp [get_access_token, h, he]

/-- A stale or empty cache with a nonzero-errcode reply raises. -/
lemma gat_refresh_err {st : ClientState} {now : Int} {r : TokenResp}
    (h : tokenCacheValid st now = false) (he : ¬ r.errcode = some 0) :
    get_access_token st now (.resp r) =
      (.error ("获取access_token失败: " ++ pyShowOpt r.errmsg), st, 1) := by
  simp [get_access_token, h, he]

/-- A stale or empty cache with a transport failure raises. -/
lemma gat_transport {st : ClientState} {now : Int} {m : String}
    (h : tokenCacheValid st now = false) :
    get_access_token st now (.transport m) =
      (.error ("请求access_token异常: " ++ m), st, 1) := by
  simp [get_access_token, h]

/-- A stale or empty cache always issues exactly one upstream request. -/
lemma gat_miss_count {st : ClientState} {now : Int} (net : TokenNet)
    (h : tokenCacheValid st now = false) :
    (get_access_token st now net).2.2 = 1 := by
  cases net with
  | resp r =>
    by_cases he : r.errcode = some 0
    · rw [gat_refresh_ok h he]
    · rw [gat_refresh_err h he]
  | transport m => rw [gat_transport h]

/-- Splitting a list by a Boolean predicate preserves its length. -/
lemma length_filter_not_add_length_filter (p : α → Bool) (l : List α) :
    (l.filter (fun a => ! p a)).length + (l.filter p).length = l.length := by
  induction l with
  | nil => rfl
  | cons a t ih =>
    cases h : p a <;> simp [List.filter_cons, h] <;> omega

/-! ## Claim theorems -/

/-- C1: get_access_token returns the cached token with no network request
whenever the cached token is truthy and now is strictly before
token_expires_at; otherwise it issues exactly one upstream token request,
and on errcode zero caches the token with expiry now plus expires_in
minus 300 and returns it, while a nonzero errcode or a transport failure
raises an error carrying the upstream message. Consequently a second call
while the refreshed token is live issues no further request (one request
across both calls), and a call at or after the computed expiry issues a
new one. -/
theorem token_cache_refresh_spec (st : ClientState) (now now2 : Int)
    (net net2 : TokenNet) (r : TokenResp) (t m : String) :
    (tokenCacheValid st now = true →
      get_access_token st now net = (.ok st.access_token, st, 0)) ∧
    (tokenCacheValid st now = false →
      (get_access_token st now net).2.2 = 1) ∧
    (tokenCacheValid st now = false → r.errcode = some 0 →
      get_access_token st now (.resp r) =
        (.ok r.access_token,
         { access_token := r.access_token,
           token_expires_at := now + r.expires_in.getD 7200 - 300 }, 1)) ∧
    (tokenCacheValid st now = false → ¬ r.errcode = some 0 →
      get_access_token st now (.resp r) =
        (.error ("获取access_token失败: " ++ pyShowOpt r.errmsg), st, 1)) ∧
    (tokenCacheValid st now = false →
      get_access_token st now (.transport m) =
        (.error ("请求access_token异常: " ++ m), st, 1)) ∧
    (tokenCacheValid st now = false → r.errcode = some 0 →
      r.access_token = some t → t ≠ "" →
      now2 < now + r.expires_in.getD 7200 - 300 →
      get_access_token (get_access_token st now (.resp r)).2.1 now2 net2 =
        (.ok (some t), (get_access_token st now (.resp r)).2.1, 0) ∧
      (get_access_token st now (.resp r)).2.2 +
        (get_access_token (get_access_token st now (.resp r)).2.1 now2 net2).2.2 = 1) ∧
    (tokenCacheValid st now = false → r.errcode = some 0 →
      now + r.expires_in.getD 7200 - 300 ≤ now2 →
      (get_access_token (get_access_token st now (.resp r)).2.1 now2 net2).2.2 = 1) := by
  refine ⟨fun h => gat_cached net h, fun h => gat_miss_count net h,
    fun h he => gat_refresh_ok h he, fun h he => gat_refresh_err h he,
    fun h => gat_transport h, ?_, ?_⟩
  · intro h he ha ht h2
    rw [gat_refresh_ok h he]
    have hv : tokenCacheValid
        { access_token := r.access_token,
          token_expires_at := now + r.expires_in.getD 7200 - 300 } now2 = true := by
      simp [tokenCacheValid, ha, pyTruthyOptStr, h2]
      exact ht
    refine ⟨?_, ?_⟩
    · rw [gat_cached net2 hv]
      simp [ha]
    · rw [gat_cached net2 hv]
      rfl
  · intro h he h2
    rw [gat_refresh_ok h he]
    have hv : tokenCacheValid
        { access_token := r.access_token,
          token_expires_at := now + r.expires_in.getD 7200 - 300 } now2 = false := by
      simp [tokenCacheValid]
      intro _
      omega
    exact gat_miss_count net2 hv

/-- Witness for C1: each case of token_cache_refresh_spec evaluated at a
concrete input (valid cache at time 5 with expiry 10; fresh client
refreshed by a zero-errcode reply; a nonzero errcode; a transport
failure; a second call just before and exactly at the computed expiry
6900). -/
theorem token_cache_refresh_inst :
    get_access_token { access_token := some "T", token_expires_at := 10 } 5
        (.transport "x") =
      (.ok (some "T"), { access_token := some "T", token_expires_at := 10 }, 0) ∧
    (get_access_token freshClient 0
        (.resp { errcode := some 0, errmsg := none, access_token := some "T",
                 expires_in := some 7200 })).2.2 = 1 ∧
    get_access_token freshClient 0
        (.resp { errcode := some 0, errmsg := none, access_token := some "T",
                 expires_in := some 7200 }) =
      (.ok (some "T"), { access_token := some "T", token_expires_at := 6900 }, 1) ∧
    get_access_token freshClient 0
        (.resp { errcode := some 40013, errmsg := some "invalid corpid",
                 access_token := none, expires_in := none }) =
      (.error "获取access_token失败: invalid corpid", freshClient, 1) ∧
    get_access_token freshClient 0 (.transport "timeout") =
      (.error "请求access_token异常: timeout", freshClient, 1) ∧
    (get_access_token
        (get_access_token freshClient 0
          (.resp { errcode := some 0, errmsg := none, access_token := some "T",
                   expires_in := some 7200 })).2.1 6899 (.transport "x") =
      (.ok (some "T"),
       (get_access_token freshClient 0
          (.resp { errcode := some 0, errmsg := none, access_token := some "T",
                   expires_in := some 7200 })).2.1, 0) ∧
     (get_access_token freshClient 0
        (.resp { errcode := some 0, errmsg := none, access_token := some "T",
                 expires_in := some 7200 })).2.2 +
       (get_access_token
          (get_access_token freshClient 0
            (.resp { errcode := some 0, errmsg := none, access_token := some "T",
                     expires_in := some 7200 })).2.1 6899 (.transport "x")).2.2 = 1) ∧
    (get_access_token
        (get_access_token freshClient 0
          (.resp { errcode := some 0, errmsg := none, access_token := some "T",
                   expires_in := some 7200 })).2.1 6900 (.transport "x")).2.2 = 1 := by
  refine ⟨?_, ?_, ?_, ?_, ?_, ?_, ?_⟩
  · exact (token_cache_refresh_spec { access_token := some "T", token_expires_at := 10 }
      5 0 (.transport "x") (.transport "x")
      { errcode := none, errmsg := none, access_token := none, expires_in := none }
      "" "").1 (by decide)
  · exact (token_cache_refresh_spec freshClient 0 0
      (.resp { errcode := some 0, errmsg := none, access_token := some "T",
               expires_in := some 7200 }) (.transport "x")
      { errcode := some 0, errmsg := none, access_token := some "T",
        expires_in := some 7200 } "T" "").2.1 (by decide)
  · exact (token_cache_refresh_spec freshClient 0 0 (.transport "x") (.transport "x")
      { errcode := some 0, errmsg := none, access_token := some "T",
        expires_in := some 7200 } "T" "").2.2.1 (by decide) rfl
  · exact (token_cache_refresh_spec freshClient 0 0 (.transport "x") (.transport "x")
      { errcode := some 40013, errmsg := some "invalid corpid",
        access_token := none, expires_in := none } "" "").2.2.2.1 (by decide) (by decide)
  · exact (token_cache_refresh_spec freshClient 0 0 (.transport "x") (.transport "x")
      { errcode := none, errmsg := none, access_token := none, expires_in := none }
      "" "timeout").2.2.2.2.1 (by decide)
  · exact (token_cache_refresh_spec freshClient 0 6899 (.transport "x") (.transport "x")
      { errcode := some 0, errmsg := none, access_token := some "T",
        expires_in := some 7200 } "T" "").2.2.2.2.2.1 (by decide) rfl rfl
      (by decide) (by decide)
  · exact (token_cache_refresh_spec freshClient 0 6900 (.transport "x") (.transport "x")
      { errcode := some 0, errmsg := none, access_token := some "T",
        expires_in := some 7200 } "T" "").2.2.2.2.2.2 (by decide) rfl (by decide)

/-- C10: when the gettoken reply has errcode zero but no access_token
key, get_access_token caches and returns the null token without raising;
and a missing expires_in defaults to 7200 seconds before the 300-second
margin is subtracted. -/
theorem token_missing_fields_defaults (now : Int) (r : TokenResp) :
    r.errcode = some 0 → r.access_token = none →
    get_access_token freshClient now (.resp r) =
      (.ok none,
       { access_token := none,
         token_expires_at := now + r.expires_in.getD 7200 - 300 }, 1) ∧
    (r.expires_in = none →
      (get_access_token freshClient now (.resp r)).2.1.token_expires_at =
        now + 7200 - 300) := by
  intro he ha
  have h : tokenCacheValid freshClient now = false := by
    simp [tokenCacheValid, freshClient, pyTruthyOptStr]
  constructor
  · rw [gat_refresh_ok h he, ha]
  · intro hexp
    rw [gat_refresh_ok h he, hexp]
    rfl

/-- Witness for C10: a reply with errcode zero and neither access_token
nor expires_in, received by a fresh client at time 1000: the null token
is cached with expiry 1000 + 7200 - 300. -/
theorem token_missing_fields_inst :
    (get_access_token freshClient 1000
        (.resp { errcode := some 0, errmsg := none, access_token := none,
                 expires_in := none }) =
      (.ok none, { access_token := none, token_expires_at := 1000 + 7200 - 300 }, 1)) ∧
    ((get_access_token freshClient 1000
        (.resp { errcode := some 0, errmsg := none, access_token := none,
                 expires_in := none })).2.1.token_expires_at = 1000 + 7200 - 300) := by
  have h := token_missing_fields_defaults 1000
    { errcode := some 0, errmsg := none, access_token := none, expires_in := none }
    rfl rfl
  exact ⟨h.1, h.2 rfl⟩

/-- C2: every POST /send request, on any path through the handler,
persists exactly one audit record (given the store accepts the insert,
which runs in the finally block), and the status_code of that record equals
the HTTP status code returned to the caller: the list of persisted
status codes is exactly the singleton of the response code. -/
theorem audit_record_per_request (req : Req) (tnet : TokenNet) (mnet : MsgNet)
    (now : Int) (rt : ℚ) :
    ((send_message req tnet mnet true now rt).records.map AuditRecord.status_code)
      = [(send_message req tnet mnet true now rt).respCode] := by
  unfold send_message
  dsimp only
  repeat' split
  all_goals simp [auditInsert, mkAudit]

/-- C5: a failing audit insert (dbOk false) is swallowed: the HTTP
response body and status code are identical to those of the same request
with a working store, the handler still returns normally, and no record
is persisted. -/
theorem storage_failure_preserves_response (req : Req) (tnet : TokenNet)
    (mnet : MsgNet) (now : Int) (rt : ℚ) :
    (send_message req tnet mnet false now rt).respBody
      = (send_message req tnet mnet true now rt).respBody ∧
    (send_message req tnet mnet false now rt).respCode
      = (send_message req tnet mnet true now rt).respCode ∧
    (send_message req tnet mnet false now rt).records = [] := by
  unfold send_message
  dsimp only
  repeat' split
  all_goals simp [auditInsert]

/-- C3: the validation checks of POST /send run in the order tenant id,
tenant secret, agent id present, agent id numeric, body present and
nonempty, message present and nonempty; the first failure returns HTTP
400 with the corresponding error envelope and neither contacts the
upstream nor invokes the messaging client. -/
theorem validation_order_spec (req : Req) (tnet : TokenNet) (mnet : MsgNet)
    (dbOk : Bool) (now : Int) (rt : ℚ) (d : List (String × String)) (n : Int) :
    (pyTruthyOptStr req.corpId = false →
      send_message req tnet mnet dbOk now rt =
        { respBody := .envelope "请求头缺少 X-Corp-Id", respCode := 400,
          clientSends := [], tokenReqs := 0, postReqs := 0,
          records := auditInsert dbOk (mkAudit req now rt req.corpId
            (req.agentId.map Sum.inr) none none 400 false
            (some "请求头缺少 X-Corp-Id")) }) ∧
    (pyTruthyOptStr req.corpId = true → pyTruthyOptStr req.corpSecret = false →
      send_message req tnet mnet dbOk now rt =
        { respBody := .envelope "请求头缺少 X-Corp-Secret", respCode := 400,
          clientSends := [], tokenReqs := 0, postReqs := 0,
          records := auditInsert dbOk (mkAudit req now rt req.corpId
            (req.agentId.map Sum.inr) none none 400 false
            (some "请求头缺少 X-Corp-Secret")) }) ∧
    (pyTruthyOptStr req.corpId = true → pyTruthyOptStr req.corpSecret = true →
      pyTruthyOptStr req.agentId = false →
      send_message req tnet mnet dbOk now rt =
        { respBody := .envelope "请求头缺少 X-Agent-Id", respCode := 400,
          clientSends := [], tokenReqs := 0, postReqs := 0,
          records := auditInsert dbOk (mkAudit req now rt req.corpId
            (req.agentId.map Sum.inr) none none 400 false
            (some "请求头缺少 X-Agent-Id")) }) ∧
    (pyTruthyOptStr req.corpId = true → pyTruthyOptStr req.corpSecret = true →
      pyTruthyOptStr req.agentId = true →
      pyInt (req.agentId.getD "") = none →
      send_message req tnet mnet dbOk now rt =
        { respBody := .envelope "X-Agent-Id 必须是数字", respCode := 400,
          clientSends := [], tokenReqs := 0, postReqs := 0,
          records := auditInsert dbOk (mkAudit req now rt req.corpId
            (req.agentId.map Sum.inr) none none 400 false
            (some "X-Agent-Id 必须是数字")) }) ∧
    (pyTruthyOptStr req.corpId = true → pyTruthyOptStr req.corpSecret = true →
      pyTruthyOptStr req.agentId = true →
      pyInt (req.agentId.getD "") = some n →
      (req.body = none ∨ req.body = some []) →
      send_message req tnet mnet dbOk now rt =
        { respBody := .envelope "请求体不能为空", respCode := 400,
          clientSends := [], tokenReqs := 0, postReqs := 0,
          records := auditInsert dbOk (mkAudit req now rt req.corpId
            (some (Sum.inl n)) none none 400 false (some "请求体为空")) }) ∧
    (pyTruthyOptStr req.corpId = true → pyTruthyOptStr req.corpSecret = true →
      pyTruthyOptStr req.agentId = true →
      pyInt (req.agentId.getD "") = some n →
      req.body = some d → d ≠ [] →
      pyTruthyOptStr (pyGet d "message") = false →
      send_message req tnet mnet dbOk now rt =
        { respBody := .envelope "消息内容不能为空", respCode := 400,
          clientSends := [], tokenReqs := 0, postReqs := 0,
          records := auditInsert dbOk (mkAudit req now rt req.corpId
            (some (Sum.inl n)) none (pyGet d "message") 400 false
            (some "消息内容为空")) }) := by
  refine ⟨?_, ?_, ?_, ?_, ?_, ?_⟩
  · intro h1
    simp [send_message, h1]
  · intro h1 h2
    simp [send_message, h1, h2]
  · intro h1 h2 h3
    simp [send_message, h1, h2, h3]
  · intro h1 h2 h3 h4
    simp [send_message, h1, h2, h3, h4]
  · intro h1 h2 h3 h4 h5
    rcases h5 with h5 | h5 <;> simp [send_message, h1, h2, h3, h4, h5]
  · intro h1 h2 h3 h4 h5 h6 h7
    simp [send_message, h1, h2, h3, h4, h5, h6, h7]

/-- Witness for C3: each validation failure evaluated on a concrete
request; the X-Agent-Id abc scenario of the spec yields HTTP 400 with
the numeric-agent-id error envelope and no upstream token request. -/
theorem validation_order_inst :
    ((send_message
        { corpId := none, corpSecret := none, agentId := none, body := none,
          clientIp := "ip", userAgent := none }
        (.transport "x") (.transport "x") true 0 1).respBody
      = .envelope "请求头缺少 X-Corp-Id") ∧
    ((send_message
        { corpId := some "c", corpSecret := none, agentId := none, body := none,
          clientIp := "ip", userAgent := none }
        (.transport "x") (.transport "x") true 0 1).respBody
      = .envelope "请求头缺少 X-Corp-Secret") ∧
    ((send_message
        { corpId := some "c", corpSecret := some "s", agentId := none, body := none,
          clientIp := "ip", userAgent := none }
        (.transport "x") (.transport "x") true 0 1).respBody
      = .envelope "请求头缺少 X-Agent-Id") ∧
    ((send_message
        { corpId := some "c", corpSecret := some "s", agentId := some "abc",
          body := none, clientIp := "ip", userAgent := none }
        (.transport "x") (.transport "x") true 0 1).respBody
      = .envelope "X-Agent-Id 必须是数字") ∧
    ((send_message
        { corpId := some "c", corpSecret := some "s", agentId := some "abc",
          body := none, clientIp := "ip", userAgent := none }
        (.transport "x") (.transport "x") true 0 1).respCode = 400) ∧
    ((send_message
        { corpId := some "c", corpSecret := some "s", agentId := some "abc",
          body := none, clientIp := "ip", userAgent := none }
        (.transport "x") (.transport "x") true 0 1).tokenReqs = 0) ∧
    ((send_message
        { corpId := some "c", corpSecret := some "s", agentId := some "7",
          body := none, clientIp := "ip", userAgent := none }
        (.transport "x") (.transport "x") true 0 1).respBody
      = .envelope "请求体不能为空") ∧
    ((send_message
        { corpId := some "c", corpSecret := some "s", agentId := some "7",
          body := some [("touser", "u")], clientIp := "ip", userAgent := none }
        (.transport "x") (.transport "x") true 0 1).respBody
      = .envelope "消息内容不能为空") := by
  refine ⟨?_, ?_, ?_, ?_, ?_, ?_, ?_, ?_⟩
  · exact congrArg HandlerOut.respBody
      ((validation_order_spec _ (.transport "x") (.transport "x") true 0 1 [] 0).1
        (by decide))
  · exact congrArg HandlerOut.respBody
      ((validation_order_spec _ (.transport "x") (.transport "x") true 0 1 [] 0).2.1
        (by decide) (by decide))
  · exact congrArg HandlerOut.respBody
      ((validation_order_spec _ (.transport "x") (.transport "x") true 0 1 [] 0).2.2.1
        (by decide) (by decide) (by decide))
  · exact congrArg HandlerOut.respBody
      ((validation_order_spec _ (.transport "x") (.transport "x") true 0 1 [] 0).2.2.2.1
        (by decide) (by decide) (by decide) (by decide))
  · exact congrArg HandlerOut.respCode
      ((validation_order_spec _ (.transport "x") (.transport "x") true 0 1 [] 0).2.2.2.1
        (by decide) (by decide) (by decide) (by decide))
  · exact congrArg HandlerOut.tokenReqs
      ((validation_order_spec _ (.transport "x") (.transport "x") true 0 1 [] 0).2.2.2.1
        (by decide) (by decide) (by decide) (by decide))
  · exact congrArg HandlerOut.respBody
      ((validation_order_spec _ (.transport "x") (.transport "x") true 0 1 [] 7).2.2.2.2.1
        (by decide) (by decide) (by decide) (by decide) (Or.inl rfl))
  · exact congrArg HandlerOut.respBody
      ((validation_order_spec _ (.transport "x")
          (.transport "x") true 0 1 [("touser", "u")] 7).2.2.2.2.2
        (by decide) (by decide) (by decide) (by decide) rfl (by decide) (by decide))

/-- C9: the default recipient at-all is substituted only when the touser
key is absent from the JSON body: with a touser key present (in
particular with the empty-string value) the messaging client is invoked
with exactly that value, and with the key absent it is invoked with the
default. -/
theorem touser_default_only_when_absent (req : Req) (tnet : TokenNet)
    (mnet : MsgNet) (dbOk : Bool) (now : Int) (rt : ℚ)
    (d : List (String × String)) (n : Int) (m t : String) :
    pyTruthyOptStr req.corpId = true → pyTruthyOptStr req.corpSecret = true →
    pyTruthyOptStr req.agentId = true →
    pyInt (req.agentId.getD "") = some n →
    req.body = some d → d ≠ [] →
    pyGet d "message" = some m → m ≠ "" →
    ((pyGet d "touser" = some t →
      (send_message req tnet mnet dbOk now rt).clientSends = [(m, t)]) ∧
     (pyGet d "touser" = none →
      (send_message req tnet mnet dbOk now rt).clientSends = [(m, "@all")])) := by
  intro h1 h2 h3 h4 h5 h6 h7 h8
  have hm : pyTruthyOptStr (some m) = true := by
    simpa [pyTruthyOptStr] using h8
  have hd : d.isEmpty = false := by
    cases d with
    | nil => exact absurd rfl h6
    | cons a l => rfl
  constructor
  · intro ht
    unfold send_message
    dsimp only
    rw [h5]
    simp only [h1, h2, h3, h4, hd, hm, h7, ht]
    simp only [Bool.not_eq_true, Bool.true_eq_false, if_false, Option.getD_some,
      Bool.false_eq_true, List.isEmpty_nil]
    cases hres : (send_text_message n m (some t) none none 0 0 0 1800 freshClient
        now tnet mnet).result with
    | ok dres =>
      simp [hres]
      split <;> rfl
    | error e =>
      simp [hres]
  · intro ht
    unfold send_message
    dsimp only
    rw [h5]
    simp only [h1, h2, h3, h4, hd, hm, h7, ht]
    simp only [Bool.not_eq_true, Bool.true_eq_false, if_false, Option.getD_some,
      Option.getD_none, Bool.false_eq_true, List.isEmpty_nil]
    cases hres : (send_text_message n m (some "@all") none none 0 0 0 1800 freshClient
        now tnet mnet).result with
    | ok dres =>
      simp [hres]
      split <;> rfl
    | error e =>
      simp [hres]

/-- Witness for C9: a body whose touser key holds the empty string is
forwarded to the messaging client as the empty string, and the same body
without the key is forwarded as the default at-all. -/
theorem touser_empty_forwarded_inst :
    (send_message
      { corpId := some "c", corpSecret := some "s", agentId := some "7",
        body := some [("message", "hi"), ("touser", "")], clientIp := "ip",
        userAgent := none }
      (.transport "x") (.transport "x") true 0 1).clientSends = [("hi", "")] ∧
    (send_message
      { corpId := some "c", corpSecret := some "s", agentId := some "7",
        body := some [("message", "hi")], clientIp := "ip", userAgent := none }
      (.transport "x") (.transport "x") true 0 1).clientSends = [("hi", "@all")] := by
  constructor
  · exact (touser_default_only_when_absent _ (.transport "x") (.transport "x") true 0 1
      [("message", "hi"), ("touser", "")] 7 "hi" "" (by decide) (by decide) (by decide)
      (by decide) rfl (by decide) (by decide) (by decide)).1 (by decide)
  · exact (touser_default_only_when_absent _ (.transport "x") (.transport "x") true 0 1
      [("message", "hi")] 7 "hi" "" (by decide) (by decide) (by decide)
      (by decide) rfl (by decide) (by decide) (by decide)).2 (by decide)

/-- C4 (counterexample): an upstream reply that parses but carries
neither an errcode nor an errmsg key (the empty JSON object) yields a
result with success false and with both error_code and error_message
null, refuting the claim that every failure result has at least one of
them populated. -/
theorem send_text_missing_errcode_cex :
    ((send_text_message 1 "hi" (some "@all") none none 0 0 0 1800 freshClient 0
        (.resp { errcode := some 0, errmsg := none, access_token := some "T",
                 expires_in := some 7200 })
        (.resp { errcode := none, errmsg := none, invaliduser := none,
                 invalidparty := none, invalidtag := none })).result
      = .ok (.errRes none none)) ∧
    ¬ ((sendDictSuccess (.errRes none none) = true ∧
        sendDictHasErrCode (.errRes none none) = false) ∨
       (sendDictSuccess (.errRes none none) = false ∧
        (sendDictHasErrCode (.errRes none none) = true ∨
         sendDictHasErrMsg (.errRes none none) = true))) :=
  ⟨by decide, by decide⟩

/-- C4 (amended): when a token was obtained, a reply with errcode zero
gives success true with no error code; a reply whose errcode is not zero
gives success false with error code and message taken from the reply (so
null exactly when the reply lacks them); a transport exception gives
success false with an error message and no error code. Every result is
success true with no error code, or success false with an error code or
an error message populated, except that a parsed reply lacking both
errcode and errmsg yields success false with both fields null. -/
theorem send_text_result_classification (agentid : Int) (content : String)
    (touser toparty totag : Option String) (s1 s2 s3 s4 : Int)
    (st : ClientState) (now : Int) (tnet : TokenNet) (mnet : MsgNet)
    (r : MsgResp) (m : String) (dres : SendDict) :
    (send_text_message agentid content touser toparty totag s1 s2 s3 s4
        st now tnet mnet).result = .ok dres →
    ((mnet = .resp r → r.errcode = some 0 →
        dres = .okRes (r.invaliduser.getD "") (r.invalidparty.getD "")
          (r.invalidtag.getD "")) ∧
     (mnet = .resp r → ¬ r.errcode = some 0 →
        dres = .errRes r.errcode r.errmsg) ∧
     (mnet = .transport m →
        dres = .exnRes ("发送消息异常: " ++ m) ∧
        sendDictHasErrCode dres = false) ∧
     (sendDictSuccess dres = true → sendDictHasErrCode dres = false) ∧
     (sendDictSuccess dres = false →
        sendDictHasErrCode dres = true ∨ sendDictHasErrMsg dres = true ∨
        dres = .errRes none none)) := by
  intro h
  have hd : dres = classifySend mnet := by
    unfold send_text_message at h
    rcases hg : get_access_token st now tnet with ⟨res, st2, tk⟩
    rw [hg] at h
    cases res with
    | error e => simp at h
    | ok tok =>
      simp at h
      exact h.symm
  subst hd
  refine ⟨?_, ?_, ?_, ?_, ?_⟩
  · intro hmn he
    subst hmn
    simp [classifySend, he]
  · intro hmn he
    subst hmn
    simp [classifySend, he]
  · intro hmn
    subst hmn
    simp [classifySend, sendDictHasErrCode]
  · cases mnet with
    | resp r2 =>
      by_cases he : r2.errcode = some 0 <;>
        simp [classifySend, he, sendDictSuccess, sendDictHasErrCode]
    | transport mm => simp [classifySend, sendDictSuccess]
  · cases mnet with
    | resp r2 =>
      by_cases he : r2.errcode = some 0
      · simp [classifySend, he, sendDictSuccess]
      · intro _
        rcases hc : r2.errcode with _ | k
        · rcases hm2 : r2.errmsg with _ | em
          · right; right
            simp [classifySend, he, hc, hm2]
          · right; left
            simp [classifySend, he, hm2, sendDictHasErrMsg]
        · left
          have hk : ¬ k = 0 := by
            rw [hc] at he
            simpa using he
          simp [classifySend, he, hc, hk, sendDictHasErrCode]
    | transport mm =>
      intro _
      right; left
      simp [classifySend, sendDictHasErrMsg]

/-- Witness for C4: a reply with errcode 81013 and an errmsg: the result
is the failure dictionary carrying exactly those fields, and the amended
disjunction holds for it. -/
theorem send_text_result_classification_inst :
    ((send_text_message 1 "hi" (some "@all") none none 0 0 0 1800 freshClient 0
        (.resp { errcode := some 0, errmsg := none, access_token := some "T",
                 expires_in := some 7200 })
        (.resp { errcode := some 81013, errmsg := some "user not found",
                 invaliduser := none, invalidparty := none,
                 invalidtag := none })).result
      = .ok (.errRes (some 81013) (some "user not found"))) ∧
    (sendDictHasErrCode (.errRes (some 81013) (some "user not found")) = true ∨
     sendDictHasErrMsg (.errRes (some 81013) (some "user not found")) = true ∨
     SendDict.errRes (some 81013) (some "user not found") = .errRes none none) :=
  ⟨by decide,
   (send_text_result_classification 1 "hi" (some "@all") none none 0 0 0 1800
      freshClient 0
      (.resp { errcode := some 0, errmsg := none, access_token := some "T",
               expires_in := some 7200 })
      (.resp { errcode := some 81013, errmsg := some "user not found",
               invaliduser := none, invalidparty := none, invalidtag := none })
      { errcode := some 81013, errmsg := some "user not found",
        invaliduser := none, invalidparty := none, invalidtag := none }
      "x" (.errRes (some 81013) (some "user not found"))
      (by decide)).2.2.2.2 (by decide)⟩

/-- C6: the upstream news payload contains exactly the first
min(n, 8) submitted articles in their original order, and whether the
call raises does not depend on the articles list (excess articles never
cause an error). -/
theorem news_truncation_spec (agentid : Int) (articles arts2 : List Article)
    (touser toparty totag : Option String) (edc dci : Int) (st : ClientState)
    (now : Int) (tnet : TokenNet) (mnet : MsgNet) (p : NewsPayload) :
    ((send_news_message agentid articles touser toparty totag edc dci
        st now tnet mnet).payload = some p →
      p.articles = articles.take 8 ∧
      p.articles.length = min articles.length 8) ∧
    exceptOk (send_news_message agentid articles touser toparty totag edc dci
        st now tnet mnet).result
      = exceptOk (send_news_message agentid arts2 touser toparty totag edc dci
          st now tnet mnet).result := by
  constructor
  · intro hp
    unfold send_news_message at hp
    rcases hg : get_access_token st now tnet with ⟨res, st2, tk⟩
    rw [hg] at hp
    cases res with
    | error e => simp at hp
    | ok tok =>
      simp at hp
      constructor
      · rw [← hp]
      · rw [← hp]
        simp [List.length_take]
        omega
  · unfold send_news_message
    rcases hg : get_access_token st now tnet with ⟨res, st2, tk⟩
    cases res <;> simp [exceptOk]

/-- Witness for C6: ten articles submitted to send_news_message with a
working token: the posted payload carries exactly the first eight, in
order. -/
theorem news_truncation_inst :
    ((send_news_message 1
        [[("t", "1")], [("t", "2")], [("t", "3")], [("t", "4")], [("t", "5")],
         [("t", "6")], [("t", "7")], [("t", "8")], [("t", "9")], [("t", "10")]]
        (some "@all") none none 0 1800 freshClient 0
        (.resp { errcode := some 0, errmsg := none, access_token := some "T",
                 expires_in := some 7200 })
        (.resp { errcode := some 0, errmsg := none, invaliduser := none,
                 invalidparty := none, invalidtag := none })).payload =
      some
        { touser := some "@all", msgtype := "news", agentid := 1,
          articles := [[("t", "1")], [("t", "2")], [("t", "3")], [("t", "4")],
            [("t", "5")], [("t", "6")], [("t", "7")], [("t", "8")]],
          enable_duplicate_check := 0, duplicate_check_interval := 1800,
          toparty := none, totag := none }) ∧
    (NewsPayload.articles
        { touser := some "@all", msgtype := "news", agentid := 1,
          articles := [[("t", "1")], [("t", "2")], [("t", "3")], [("t", "4")],
            [("t", "5")], [("t", "6")], [("t", "7")], [("t", "8")]],
          enable_duplicate_check := 0, duplicate_check_interval := 1800,
          toparty := none, totag := none } =
      List.take 8
        [[("t", "1")], [("t", "2")], [("t", "3")], [("t", "4")], [("t", "5")],
         [("t", "6")], [("t", "7")], [("t", "8")], [("t", "9")], [("t", "10")]] ∧
     (NewsPayload.articles
        { touser := some "@all", msgtype := "news", agentid := 1,
          articles := [[("t", "1")], [("t", "2")], [("t", "3")], [("t", "4")],
            [("t", "5")], [("t", "6")], [("t", "7")], [("t", "8")]],
          enable_duplicate_check := 0, duplicate_check_interval := 1800,
          toparty := none, totag := none }).length =
      min
        (List.length
          [[("t", "1")], [("t", "2")], [("t", "3")], [("t", "4")], [("t", "5")],
           [("t", "6")], [("t", "7")], [("t", "8")], [("t", "9")], [("t", "10")]])
        8) :=
  ⟨by decide,
   (news_truncation_spec 1
      [[("t", "1")], [("t", "2")], [("t", "3")], [("t", "4")], [("t", "5")],
       [("t", "6")], [("t", "7")], [("t", "8")], [("t", "9")], [("t", "10")]]
      [] (some "@all") none none 0 1800 freshClient 0
      (.resp { errcode := some 0, errmsg := none, access_token := some "T",
               expires_in := some 7200 })
      (.resp { errcode := some 0, errmsg := none, invaliduser := none,
               invalidparty := none, invalidtag := none })
      { touser := some "@all", msgtype := "news", agentid := 1,
        articles := [[("t", "1")], [("t", "2")], [("t", "3")], [("t", "4")],
          [("t", "5")], [("t", "6")], [("t", "7")], [("t", "8")]],
        enable_duplicate_check := 0, duplicate_check_interval := 1800,
        toparty := none, totag := none }).1 (by decide)⟩

/-- C7 (counterexample): two calls to get_statistics with the same days
argument on the same unchanged store, made at clock times one second
apart, disagree on the total count: a record aged exactly to the window
edge falls out of the 7-day window between the calls. -/
theorem statistics_window_shift_cex :
    (get_statistics 7 604900
        [{ timestamp := 100, method := "POST", path := "/send", client_ip := "i",
           user_agent := "u", corp_id := none, agent_id := none, touser := none,
           message := none, status_code := 200, response_time := none,
           success := true, error_message := none,
           created_at := 100 }]).total_requests ≠
    (get_statistics 7 604901
        [{ timestamp := 100, method := "POST", path := "/send", client_ip := "i",
           user_agent := "u", corp_id := none, agent_id := none, touser := none,
           message := none, status_code := 200, response_time := none,
           success := true, error_message := none,
           created_at := 100 }]).total_requests := by
  decide

/-- C7 (amended): get_statistics is deterministic and read-only in the
store: two calls with the same days argument on the same store return
identical totals, counts, success rate and average response time
whenever their cutoffs classify every stored record identically — in
particular whenever they are made at the same clock reading. -/
theorem statistics_deterministic_on_window (days now1 now2 : Int)
    (db : List AuditRecord) :
    (∀ r ∈ db, decide (now1 - days * 86400 ≤ r.timestamp)
        = decide (now2 - days * 86400 ≤ r.timestamp)) →
    get_statistics days now1 db = get_statistics days now2 db := by
  intro h
  unfold get_statistics
  have hf : db.filter (fun r => decide (now1 - days * 86400 ≤ r.timestamp))
      = db.filter (fun r => decide (now2 - days * 86400 ≤ r.timestamp)) :=
    List.filter_congr h
  simp only [hf]

/-- Witness for C7 (amended): two calls 50 seconds apart whose cutoffs
both retain the single stored record return identical statistics. -/
theorem statistics_deterministic_inst :
    get_statistics 7 604900
        [{ timestamp := 100, method := "POST", path := "/send", client_ip := "i",
           user_agent := "u", corp_id := none, agent_id := none, touser := none,
           message := none, status_code := 200, response_time := none,
           success := true, error_message := none, created_at := 100 }]
      = get_statistics 7 604850
        [{ timestamp := 100, method := "POST", path := "/send", client_ip := "i",
           user_agent := "u", corp_id := none, agent_id := none, touser := none,
           message := none, status_code := 200, response_time := none,
           success := true, error_message := none, created_at := 100 }] :=
  statistics_deterministic_on_window 7 604900 604850
    [{ timestamp := 100, method := "POST", path := "/send", client_ip := "i",
       user_agent := "u", corp_id := none, agent_id := none, touser := none,
       message := none, status_code := 200, response_time := none,
       success := true, error_message := none, created_at := 100 }]
    (by decide)

/-- C8: clean_old_logs deletes exactly the records whose timestamp is
strictly earlier than now minus days (in seconds), keeps every other
record, and returns the number deleted; on a store holding one record 40
days old and one 5 days old, pruning at 30 days returns 1. -/
theorem prune_spec (days now : Int) (db : List AuditRecord) (r : AuditRecord) :
    ((clean_old_logs days now db).1.length + (clean_old_logs days now db).2
      = db.length) ∧
    (r ∈ (clean_old_logs days now db).1 ↔
      r ∈ db ∧ ¬ r.timestamp < now - days * 86400) ∧
    ((clean_old_logs 30 4320000
        [{ timestamp := 864000, method := "POST", path := "/send",
           client_ip := "i", user_agent := "u", corp_id := none,
           agent_id := none, touser := none, message := none,
           status_code := 200, response_time := none, success := true,
           error_message := none, created_at := 864000 },
         { timestamp := 3888000, method := "POST", path := "/send",
           client_ip := "i", user_agent := "u", corp_id := none,
           agent_id := none, touser := none, message := none,
           status_code := 200, response_time := none, success := true,
           error_message := none, created_at := 3888000 }]).2 = 1) := by
  refine ⟨?_, ?_, by decide⟩
  · have h := length_filter_not_add_length_filter
      (fun x => decide (x.timestamp < now - days * 86400)) db
    unfold clean_old_logs
    dsimp only
    simpa only [decide_not] using h
  · unfold clean_old_logs
    dsimp only
    simp [List.mem_filter]

end WechatNotice
